import Mathlib

/-!
Shallow embedding of the Keycloak OIDC FastAPI middleware
(`middleware-examples/python/fastapi_oidc_mw.py`) in Lean 4, together with
proofs about its key cache, token validation, role authorization and
principal extraction.

Modelling conventions:
- Python JSON-ish values are modelled by `PyVal`; Python dicts by insertion
  ordered association lists (`PyDict`, `dictGet`, `dictSet`).
- `time.time()` is a parameter `now : Int` supplied at each call.
- Network interaction (the JWKS GET and the discovery GET) is a parameter of
  type `Except Unit _`: `.error` is a network / HTTP-status / JSON-decode
  failure, `.ok` the parsed JSON body.
- Python exceptions are the `PyErr` type; `Except.error` return values model
  `raise`. The `except JWTError` handler of `validate_token` catches exactly
  the `JoseErr` outcomes of the modelled `jwt.decode` plus the two `JWTError`
  raises in `validate_token` itself; other exceptions propagate.
- Each call that may mutate `self` returns the updated state explicitly, plus
  a count of network fetches performed during the call.
-/

/-- A Python value as far as this middleware inspects it: `None`, ints,
strings, lists and string-keyed dicts. -/
inductive PyVal : Type
  | vnone : PyVal
  | vint : Int → PyVal
  | vstr : String → PyVal
  | vlist : List PyVal → PyVal
  | vdict : List (String × PyVal) → PyVal

/-- A Python dict with string keys, as an insertion-ordered association list. -/
abbrev PyDict := List (String × PyVal)

/-- `d[k]` lookup on a Python dict: first (hence only, since `dictSet` keeps
keys unique) binding of `k`. -/
def dictGet {α : Type} (d : List (String × α)) (k : String) : Option α :=
  match d with
  | [] => none
  | (k', v) :: rest => if k' = k then some v else dictGet rest k

/-- `d.get(k, dflt)` on a Python dict. -/
def dictGetD (d : PyDict) (k : String) (dflt : PyVal) : PyVal :=
  (dictGet d k).getD dflt

/-- `d[k] = v` on a Python dict: overwrite in place if the key exists,
otherwise append. -/
def dictSet {α : Type} (d : List (String × α)) (k : String) (v : α) :
    List (String × α) :=
  match d with
  | [] => [(k, v)]
  | (k', v') :: rest =>
    if k' = k then (k, v) :: rest else (k', v') :: dictSet rest k v

mutual

/-- Python `==` on `PyVal` (structural equality, as Python compares
strings, ints, lists and dicts by value). -/
def pyBeq : PyVal → PyVal → Bool
  | .vnone, .vnone => true
  | .vint a, .vint b => a == b
  | .vstr a, .vstr b => a == b
  | .vlist a, .vlist b => pyBeqList a b
  | .vdict a, .vdict b => pyBeqDict a b
  | _, _ => false

/-- Elementwise Python `==` on lists. -/
def pyBeqList : List PyVal → List PyVal → Bool
  | [], [] => true
  | a :: as, b :: bs => pyBeq a b && pyBeqList as bs
  | _, _ => false

/-- Entrywise Python `==` on dict entry lists. -/
def pyBeqDict : List (String × PyVal) → List (String × PyVal) → Bool
  | [], [] => true
  | (ka, va) :: as, (kb, vb) :: bs => ka == kb && pyBeq va vb && pyBeqDict as bs
  | _, _ => false

end

/-- Modelled Python exceptions that can escape the middleware methods. -/
inductive PyErr : Type
  /-- An `httpx` request error, a `raise_for_status` error or a JSON decode
  error on a network response. -/
  | fetchError
  /-- `KeyError` on a dict subscript, with the missing key. -/
  | keyError (k : String)
  /-- `TypeError` from subscripting `None` (`self.oidc_config` before init). -/
  | typeErrorNone
  /-- `jwk.construct` failure on a malformed JWKS entry. -/
  | constructError
  /-- `AttributeError` from calling `.get` on a non-dict value. -/
  | attributeError
  /-- `TypeError` from `in` on a non-container value. -/
  | typeError
  /-- A FastAPI `HTTPException(status_code, detail)`. -/
  | httpException (status : Nat) (detail : String)
deriving DecidableEq

/-- The signature-verification material `jwk.construct` yields for one JWKS
entry, kept opaque: two keys are interchangeable iff equal. -/
abbrev SigningKey := String

/-- One entry of the fetched JWKS `keys` array, as far as `get_jwks_keys`
touches it: `kid` is the value of `key_data["kid"]` (`none` models a missing
`kid` field, so the subscript raises `KeyError`), `material` is the result of
`jwk.construct(key_data)` (`none` models a `construct` exception). -/
structure KeyData : Type where
  kid : Option String
  material : Option SigningKey
deriving DecidableEq

/-- The parsed JSON body of a successful JWKS GET: `none` models a JSON
object without a `keys` field (so `jwks_data["keys"]` raises `KeyError`),
`some entries` the value of `keys`. A network / HTTP / JSON failure is the
`.error` of the surrounding `Except`. -/
abbrev JwksFetch := Except Unit (Option (List KeyData))

/-- The mutable state of a `KeycloakOIDCMiddleware` instance (the fields the
core reads and writes). -/
structure MWState : Type where
  oidc_config : Option PyDict
  jwks_keys : List (String × SigningKey)
  jwks_last_fetch : Int
  jwks_cache_ttl : Int
  client_id : String

/-- `self.oidc_config["jwks_uri"]` succeeds: config fetched and field
present. When false, the subscript raises inside the `try` of
`get_jwks_keys` (a `TypeError` on `None` or a `KeyError`) before any
network call. -/
def jwksUriOk (cfg : Option PyDict) : Bool :=
  match cfg with
  | none => false
  | some d => (dictGet d "jwks_uri").isSome

/-- The `for key_data in jwks_data["keys"]` conversion loop: builds the new
`jwks_keys` dict entry by entry, stopping at the first entry whose `kid`
subscript or `jwk.construct` raises; returns the dict built so far and the
exception, if any. The dict built so far stays assigned to `self.jwks_keys`
because the loop mutates it in place. -/
def convertKeys : List KeyData → List (String × SigningKey) →
    List (String × SigningKey) × Option PyErr
  | [], acc => (acc, none)
  | kd :: rest, acc =>
    match kd.kid with
    | none => (acc, some (.keyError "kid"))
    | some kid =>
      match kd.material with
      | none => (acc, some .constructError)
      | some sk => convertKeys rest (dictSet acc kid sk)

/-- Result of one `get_jwks_keys` call: the state after the call, the
returned dict or the escaping exception, and how many JWKS network fetches
the call performed (0 or 1). -/
structure JwksResult : Type where
  state : MWState
  result : Except PyErr (List (String × SigningKey))
  fetches : Nat

/-- `get_jwks_keys` (fetch and cache JWKS keys). Refreshes only when
`now - jwks_last_fetch > jwks_cache_ttl`; inside the `try`, evaluates
`self.oidc_config["jwks_uri"]`, performs the GET, clears `self.jwks_keys`,
runs the conversion loop, and on full success sets `jwks_last_fetch := now`;
the `except` swallows the exception when `self.jwks_keys` is non-empty at
that point and re-raises it otherwise. Always ends by returning
`self.jwks_keys` when no exception escapes. -/
def get_jwks_keys (st : MWState) (now : Int) (fetch : JwksFetch) : JwksResult :=
  if now - st.jwks_last_fetch > st.jwks_cache_ttl then
    if jwksUriOk st.oidc_config then
      match fetch with
      | .error _ =>
        if st.jwks_keys = [] then ⟨st, .error .fetchError, 1⟩
        else ⟨st, .ok st.jwks_keys, 1⟩
      | .ok none =>
        let st' := { st with jwks_keys := [] }
        if st'.jwks_keys = [] then ⟨st', .error (.keyError "keys"), 1⟩
        else ⟨st', .ok st'.jwks_keys, 1⟩
      | .ok (some entries) =>
        match convertKeys entries [] with
        | (d, some e) =>
          let st' := { st with jwks_keys := d }
          if st'.jwks_keys = [] then ⟨st', .error e, 1⟩
          else ⟨st', .ok st'.jwks_keys, 1⟩
        | (d, none) =>
          let st' := { st with jwks_keys := d, jwks_last_fetch := now }
          ⟨st', .ok d, 1⟩
    else
      if st.jwks_keys = [] then ⟨st, .error (.keyError "jwks_uri"), 0⟩
      else ⟨st, .ok st.jwks_keys, 0⟩
  else
    ⟨st, .ok st.jwks_keys, 0⟩

/-- `init` (initialize OIDC configuration): one GET of the well-known
discovery endpoint; on success stores the parsed JSON body in
`self.oidc_config` unchanged and unexamined; on failure logs and re-raises.
`discovery` is the network outcome: `.error` a request / status / JSON
failure, `.ok doc` the parsed body. -/
def init (st : MWState) (discovery : Except Unit PyDict) : Except PyErr MWState :=
  match discovery with
  | .error _ => .error .fetchError
  | .ok doc => .ok { st with oidc_config := some doc }

/-- A decoded JWT, as far as `validate_token` inspects it: `kid` is the
value of `unverified_header.get("kid")` (`none` when absent), `alg` the
header algorithm field, `sigKeyId` and `sigAlg` the key material and the
algorithm that actually produced the signature (so the signature verifies
under key `k` and algorithm `a` iff `sigKeyId = k` and `sigAlg = a`), and
`claims` the payload. -/
structure Token : Type where
  kid : Option String
  alg : String
  sigKeyId : SigningKey
  sigAlg : String
  claims : PyDict

/-- Python truthiness of the header `kid`: `if not kid` is taken when the
header has no `kid` or its value is the empty string. -/
def kidFalsy : Option String → Bool
  | none => true
  | some s => s == ""

/-- The `algorithms` allow-list `validate_token` passes to `jwt.decode`:
the literal `["RS256"]`, independent of the token. -/
def allowed_algorithms : List String := ["RS256"]

/-- The `JWTError` outcomes of the modelled `jwt.decode`; all are caught by
the `except JWTError` of `validate_token` and mapped to a 401. -/
inductive JoseErr : Type
  | algNotAllowed
  | signatureInvalid
  | issuerMismatch
  | audienceMismatch
  | expired
deriving DecidableEq

/-- Python `s in xs` for a string against a list value: membership by `==`,
scanning left to right; a non-string element never equals a string. -/
def listContainsStr : List PyVal → String → Bool
  | [], _ => false
  | .vstr t :: rest, s => t == s || listContainsStr rest s
  | _ :: rest, s => listContainsStr rest s

/-- The `aud` check of the modelled `jwt.decode`: the `aud` claim must be
the audience string or a list containing it. -/
def audCheck (claims : PyDict) (audience : String) : Bool :=
  match dictGet claims "aud" with
  | some (.vstr s) => s == audience
  | some (.vlist xs) => listContainsStr xs audience
  | _ => false

/-- The `exp` check of the modelled `jwt.decode`: an `exp` claim, when
present, must be an integer timestamp in the future. -/
def expCheck (claims : PyDict) (now : Int) : Bool :=
  match dictGet claims "exp" with
  | some (.vint e) => now < e
  | some _ => false
  | none => true

/-- Model of `jose.jwt.decode(token, key, algorithms, audience, issuer)`:
rejects a header algorithm outside the allow-list, then verifies the
signature against `key` under the token's (allow-listed) algorithm, then
checks the `iss`, `aud` and `exp` claims; on success returns the payload. -/
def jwt_decode (tok : Token) (key : SigningKey) (algorithms : List String)
    (audience : String) (issuer : PyVal) (now : Int) : Except JoseErr PyDict :=
  if !(algorithms.contains tok.alg) then .error .algNotAllowed
  else if !(tok.sigKeyId == key && tok.sigAlg == tok.alg) then
    .error .signatureInvalid
  else if !(pyBeq (dictGetD tok.claims "iss" .vnone) issuer) then
    .error .issuerMismatch
  else if !(audCheck tok.claims audience) then .error .audienceMismatch
  else if !(expCheck tok.claims now) then .error .expired
  else .ok tok.claims

/-- Result of one `validate_token` call: state after the call, the payload
or the escaping exception, and the number of JWKS fetches performed. -/
structure ValidateResult : Type where
  state : MWState
  result : Except PyErr PyDict
  fetches : Nat

/-- `validate_token`: reads `kid` from the unverified header (401 when
falsy), resolves the signing key through `get_jwks_keys` (a `JWTError` 401
when the kid is not in the returned dict; a `get_jwks_keys` exception is not
a `JWTError` and propagates unchanged), evaluates
`self.oidc_config["issuer"]` (a `TypeError` / `KeyError` there also
propagates unchanged), then calls `jwt.decode` with the fixed
`allowed_algorithms`, the configured `client_id` audience and the discovery
issuer; every `JWTError` from decoding becomes an `HTTPException 401`. -/
def validate_token (st : MWState) (now : Int) (fetch : JwksFetch)
    (tok : Token) : ValidateResult :=
  if kidFalsy tok.kid then
    ⟨st, .error (.httpException 401 "Token validation failed: missing kid"), 0⟩
  else
    match tok.kid with
    | none =>
      ⟨st, .error (.httpException 401 "Token validation failed: missing kid"), 0⟩
    | some kid =>
      let r := get_jwks_keys st now fetch
      match r.result with
      | .error e => ⟨r.state, .error e, r.fetches⟩
      | .ok keys =>
        match dictGet keys kid with
        | none =>
          ⟨r.state,
           .error (.httpException 401 "Token validation failed: unknown kid"),
           r.fetches⟩
        | some key =>
          match st.oidc_config with
          | none => ⟨r.state, .error .typeErrorNone, r.fetches⟩
          | some cfg =>
            match dictGet cfg "issuer" with
            | none => ⟨r.state, .error (.keyError "issuer"), r.fetches⟩
            | some issuer =>
              match jwt_decode tok key allowed_algorithms st.client_id issuer now with
              | .error _ =>
                ⟨r.state,
                 .error (.httpException 401 "Token validation failed: decode error"),
                 r.fetches⟩
              | .ok payload => ⟨r.state, .ok payload, r.fetches⟩

/-- The chained `payload.get("realm_access", empty dict).get("roles", [])`:
the outer `.get` never raises on a dict payload; the inner `.get` raises
`AttributeError` when the `realm_access` value is present but not a dict. -/
def getRealmRolesVal (payload : PyDict) : Except PyErr PyVal :=
  match dictGetD payload "realm_access" (.vdict []) with
  | .vdict d => .ok (dictGetD d "roles" (.vlist []))
  | _ => .error .attributeError

/-- Python `role in user_roles` where `user_roles` is an arbitrary value:
membership for lists and dict-key containers, substring test for strings,
`TypeError` otherwise. -/
def pyIn (s : String) : PyVal → Except PyErr Bool
  | .vlist xs => .ok (listContainsStr xs s)
  | .vstr t => .ok ((List.range (t.length + 1)).any fun i => s.isPrefixOf (t.drop i))
  | .vdict d => .ok (dictGet d s).isSome
  | _ => .error .typeError

/-- `any(role in user_roles for role in required_roles)`: left-to-right with
short-circuit, propagating the first `in` exception. -/
def pyAnyIn (roles : List String) (container : PyVal) : Except PyErr Bool :=
  match roles with
  | [] => .ok false
  | r :: rest =>
    match pyIn r container with
    | .error e => .error e
    | .ok true => .ok true
    | .ok false => pyAnyIn rest container

/-- `has_role(user_payload, required_roles)`: `True` outright for an empty
required list; otherwise reads the realm roles (which can raise
`AttributeError` on a non-dict `realm_access`) and tests whether any
required role is in them. -/
def has_role (payload : PyDict) (required_roles : List String) :
    Except PyErr Bool :=
  if required_roles = [] then .ok true
  else
    match getRealmRolesVal payload with
    | .error e => .error e
    | .ok user_roles => pyAnyIn required_roles user_roles

/-- The user record dict both `get_current_user` and `require_auth` build
from a validated payload. -/
structure UserRecord : Type where
  id : PyVal
  username : PyVal
  email : PyVal
  name : PyVal
  roles : PyVal
  client_roles : PyVal
  token_payload : PyDict

/-- Building the user record from the payload: the only fallible field is
`roles` (the `realm_access` flattening); the others are plain `.get` calls
with `None` or empty defaults, and `client_roles` is the raw
`resource_access` value (empty dict default), stored without flattening. -/
def build_user (payload : PyDict) : Except PyErr UserRecord :=
  match getRealmRolesVal payload with
  | .error e => .error e
  | .ok roles =>
    .ok { id := dictGetD payload "sub" .vnone
          username := dictGetD payload "preferred_username" .vnone
          email := dictGetD payload "email" .vnone
          name := dictGetD payload "name" .vnone
          roles := roles
          client_roles := dictGetD payload "resource_access" (.vdict [])
          token_payload := payload }

/-- `get_current_user`: `None` without credentials; otherwise validates the
token and builds the user record inside a `try` whose handler catches only
`HTTPException` (returning `None`); any other exception — a propagated
fetch / key error from `get_jwks_keys`, or the `AttributeError` from
`build_user` — escapes. Returns the state after the call alongside the
outcome. -/
def get_current_user (st : MWState) (now : Int) (fetch : JwksFetch)
    (credentials : Option Token) : MWState × Except PyErr (Option UserRecord) :=
  match credentials with
  | none => (st, .ok none)
  | some tok =>
    let r := validate_token st now fetch tok
    match r.result with
    | .error (.httpException _ _) => (r.state, .ok none)
    | .error e => (r.state, .error e)
    | .ok payload =>
      match build_user payload with
      | .error e => (r.state, .error e)
      | .ok u => (r.state, .ok (some u))

/-! ## Concrete fixtures for counterexamples and witnesses -/

/-- A discovery document carrying both required fields. -/
def cfgOk : PyDict :=
  [("issuer", PyVal.vstr "https://idp/realms/r"),
   ("jwks_uri", PyVal.vstr "https://idp/realms/r/jwks")]

/-- A state whose cache holds one key `k1` fetched at time 1000 with a
300-second TTL. -/
def stCached : MWState :=
  { oidc_config := some cfgOk
    jwks_keys := [("k1", "KEY1")]
    jwks_last_fetch := 1000
    jwks_cache_ttl := 300
    client_id := "project-web" }

/-- A state that has never fetched any key. -/
def stEmpty : MWState :=
  { oidc_config := some cfgOk
    jwks_keys := []
    jwks_last_fetch := 0
    jwks_cache_ttl := 300
    client_id := "project-web" }

/-- A fully well-formed claim payload matching `stCached`. -/
def goodClaims : PyDict :=
  [("iss", PyVal.vstr "https://idp/realms/r"),
   ("aud", PyVal.vstr "project-web"),
   ("exp", PyVal.vint 2000),
   ("sub", PyVal.vstr "user-1"),
   ("realm_access", PyVal.vdict [("roles", PyVal.vlist [PyVal.vstr "user"])])]

/-- As `goodClaims`, but with a `realm_access` claim that is a string rather
than an object. -/
def strRealmClaims : PyDict :=
  [("iss", PyVal.vstr "https://idp/realms/r"),
   ("aud", PyVal.vstr "project-web"),
   ("exp", PyVal.vint 2000),
   ("sub", PyVal.vstr "user-1"),
   ("realm_access", PyVal.vstr "user")]

/-- A token correctly signed by `k1` with well-formed claims. -/
def tokGood : Token :=
  { kid := some "k1", alg := "RS256", sigKeyId := "KEY1", sigAlg := "RS256"
    claims := goodClaims }

/-- A token correctly signed by `k1` whose `realm_access` claim is a
string. -/
def tokStrRealm : Token :=
  { kid := some "k1", alg := "RS256", sigKeyId := "KEY1", sigAlg := "RS256"
    claims := strRealmClaims }

/-- A token naming a key `k2` that is not in `stCached`. -/
def tokK2 : Token :=
  { kid := some "k2", alg := "RS256", sigKeyId := "KEY2", sigAlg := "RS256"
    claims := goodClaims }

/-- A token whose header carries no `kid`. -/
def tokNoKid : Token :=
  { kid := none, alg := "RS256", sigKeyId := "KEY1", sigAlg := "RS256"
    claims := goodClaims }

/-- A discovery document lacking both `issuer` and `jwks_uri`. -/
def noFieldsDoc : PyDict := [("token_endpoint", PyVal.vstr "https://idp/token")]

/-! ## Cache lemmas -/

/-- A fresh cache returns the cached dict unchanged, with no fetch. -/
theorem get_jwks_keys_fresh (st : MWState) (now : Int) (f : JwksFetch)
    (h : now - st.jwks_last_fetch ≤ st.jwks_cache_ttl) :
    get_jwks_keys st now f = ⟨st, .ok st.jwks_keys, 0⟩ := by
  unfold get_jwks_keys
  rw [if_neg (not_lt.mpr h)]

/-- A stale-cache refresh whose fetch succeeds and whose every entry
converts atomically installs the new generation and stamps the fetch
time. -/
theorem get_jwks_keys_refresh_ok (st : MWState) (now : Int)
    (entries : List KeyData) (ks : List (String × SigningKey))
    (hstale : now - st.jwks_last_fetch > st.jwks_cache_ttl)
    (hcfg : jwksUriOk st.oidc_config = true)
    (hconv : convertKeys entries [] = (ks, none)) :
    get_jwks_keys st now (.ok (some entries)) =
      ⟨{ st with jwks_keys := ks, jwks_last_fetch := now }, .ok ks, 1⟩ := by
  unfold get_jwks_keys
  rw [if_pos hstale, if_pos hcfg]
  dsimp only
  rw [hconv]

/-- A stale-cache refresh whose network fetch fails leaves the state intact
and serves the previous non-empty dict. -/
theorem get_jwks_keys_net_error (st : MWState) (now : Int) (e : Unit)
    (hstale : now - st.jwks_last_fetch > st.jwks_cache_ttl)
    (hcfg : jwksUriOk st.oidc_config = true)
    (hne : st.jwks_keys ≠ []) :
    get_jwks_keys st now (.error e) = ⟨st, .ok st.jwks_keys, 1⟩ := by
  unfold get_jwks_keys
  rw [if_pos hstale, if_pos hcfg]
  dsimp only
  rw [if_neg hne]

/-- A stale refresh whose network fetch fails with nothing ever cached
propagates the fetch error. -/
theorem get_jwks_keys_net_error_empty (st : MWState) (now : Int) (e : Unit)
    (hstale : now - st.jwks_last_fetch > st.jwks_cache_ttl)
    (hcfg : jwksUriOk st.oidc_config = true)
    (hempty : st.jwks_keys = []) :
    get_jwks_keys st now (.error e) = ⟨st, .error .fetchError, 1⟩ := by
  unfold get_jwks_keys
  rw [if_pos hstale, if_pos hcfg]
  dsimp only
  rw [if_pos hempty]

/-- Any stale call with a usable `jwks_uri` performs exactly one network
fetch, whatever the fetch outcome. -/
theorem get_jwks_keys_stale_fetches (st : MWState) (now : Int) (f : JwksFetch)
    (hstale : now - st.jwks_last_fetch > st.jwks_cache_ttl)
    (hcfg : jwksUriOk st.oidc_config = true) :
    (get_jwks_keys st now f).fetches = 1 := by
  unfold get_jwks_keys
  rw [if_pos hstale, if_pos hcfg]
  rcases f with e | ⟨_ | entries⟩
  · dsimp only; split <;> rfl
  · dsimp only; split <;> rfl
  · dsimp only
    rcases h : convertKeys entries [] with ⟨d, _ | e⟩
    · rfl
    · dsimp only; split <;> rfl

/-! ## Membership lemmas for the role check -/

/-- Python `s in xs` on a list holds exactly when the string value is an
element. -/
theorem listContainsStr_iff (xs : List PyVal) (s : String) :
    listContainsStr xs s = true ↔ PyVal.vstr s ∈ xs := by
  induction xs with
  | nil => simp [listContainsStr]
  | cons v rest ih =>
    cases v with
    | vstr t =>
      show (t == s || listContainsStr rest s) = true ↔
        PyVal.vstr s ∈ PyVal.vstr t :: rest
      simp only [Bool.or_eq_true, beq_iff_eq, ih, List.mem_cons, PyVal.vstr.injEq]
      exact or_congr eq_comm Iff.rfl
    | vnone =>
      rw [show listContainsStr (PyVal.vnone :: rest) s = listContainsStr rest s
        from rfl, ih]
      simp
    | vint n =>
      rw [show listContainsStr (PyVal.vint n :: rest) s = listContainsStr rest s
        from rfl, ih]
      simp
    | vlist l =>
      rw [show listContainsStr (PyVal.vlist l :: rest) s = listContainsStr rest s
        from rfl, ih]
      simp
    | vdict d =>
      rw [show listContainsStr (PyVal.vdict d :: rest) s = listContainsStr rest s
        from rfl, ih]
      simp

/-- The short-circuit `any` over a list-valued `user_roles` never raises and
computes the Boolean `any`. -/
theorem pyAnyIn_vlist (roles : List String) (rs : List PyVal) :
    pyAnyIn roles (.vlist rs) = .ok (roles.any fun r => listContainsStr rs r) := by
  induction roles with
  | nil => rfl
  | cons r rest ih =>
    simp only [pyAnyIn, pyIn, List.any_cons]
    cases h : listContainsStr rs r <;> simp [h, ih]

/-! ## Claim theorems -/

/-- C1: counterexample — with a fresh cache (now 1100, fetchedAt 1000,
ttl 300) and a token whose kid `k2` is absent from the current KeySet,
`validate_token` fails with the 401 unknown-key error having performed zero
JWKS fetches, even though the network (the `fetch` argument) would have
supplied `k2`: no refresh is triggered on a fresh-cache key miss, contrary
to the claim. -/
theorem c1_counterexample :
    (validate_token stCached 1100
      (.ok (some [⟨some "k2", some "KEY2"⟩])) tokK2).fetches = 0 ∧
    (validate_token stCached 1100
      (.ok (some [⟨some "k2", some "KEY2"⟩])) tokK2).result =
      .error (.httpException 401 "Token validation failed: unknown kid") :=
  ⟨rfl, rfl⟩

/-- C2: counterexample — a stale-cache refresh whose fetched generation is
the two entries `a` (well-formed) and `b` (whose `jwk.construct` fails)
leaves `jwks_keys` as the truncated set containing only `a`, and serves that
set to the caller: the observable mapping is neither the complete previous
generation (`k1`) nor a complete new generation (it lacks the fetched entry
`b`), so the KeySet is not mutated only by full atomic replacement. -/
theorem c2_counterexample :
    (get_jwks_keys stCached 1400
      (.ok (some [⟨some "a", some "A"⟩, ⟨some "b", none⟩]))).state.jwks_keys =
      [("a", "A")] ∧
    (get_jwks_keys stCached 1400
      (.ok (some [⟨some "a", some "A"⟩, ⟨some "b", none⟩]))).result =
      .ok [("a", "A")] ∧
    [("a", "A")] ≠ stCached.jwks_keys ∧
    dictGet (get_jwks_keys stCached 1400
      (.ok (some [⟨some "a", some "A"⟩, ⟨some "b", none⟩]))).state.jwks_keys "b" =
      none :=
  ⟨rfl, rfl, by decide, rfl⟩

/-- C3: counterexample — with the previous non-empty KeySet holding `k1`, a
refresh whose fetch succeeds but whose first entry fails to parse discards
the previous KeySet (it was cleared before conversion), leaves the cache
empty, and propagates the parse error; the subsequent lookup of the
already-cached `k1` therefore fails instead of returning the stale key, so
fail-soft does not hold for parse errors, contrary to the claim. -/
theorem c3_counterexample :
    (get_jwks_keys stCached 1400 (.ok (some [⟨some "a", none⟩]))).result =
      .error .constructError ∧
    (get_jwks_keys stCached 1400 (.ok (some [⟨some "a", none⟩]))).state.jwks_keys =
      [] ∧
    stCached.jwks_keys = [("k1", "KEY1")] ∧
    (validate_token stCached 1400 (.ok (some [⟨some "a", none⟩])) tokGood).result =
      .error .constructError :=
  ⟨rfl, rfl, rfl, rfl⟩

/-- C1 (amended): a refresh is triggered only when
`now - fetchedAt > ttl`. When the cache is fresh, the cached KeySet is used
with no JWKS fetch regardless of whether the requested `keyId` is present;
in particular a fresh-cache lookup of an absent `keyId` fails with the
unknown-signing-key 401 immediately, without triggering a refresh, and
leaves the state untouched. -/
theorem c1_amended_fresh_cache_never_fetches (st : MWState) (now : Int)
    (f : JwksFetch) (tok : Token) (k : String)
    (hfresh : now - st.jwks_last_fetch ≤ st.jwks_cache_ttl)
    (hkid : tok.kid = some k) (hk : k ≠ "")
    (habs : dictGet st.jwks_keys k = none) :
    (validate_token st now f tok).fetches = 0 ∧
    (validate_token st now f tok).result =
      .error (.httpException 401 "Token validation failed: unknown kid") ∧
    (validate_token st now f tok).state = st := by
  simp only [validate_token, hkid, kidFalsy, get_jwks_keys_fresh st now f hfresh,
    habs]
  simp [hk]

/-- C1 witness: the amended claim at the concrete fresh state `stCached`
with absent kid `k2`, a network that would fail if consulted. -/
theorem c1_witness :
    (validate_token stCached 1100 (.error ()) tokK2).fetches = 0 ∧
    (validate_token stCached 1100 (.error ()) tokK2).result =
      .error (.httpException 401 "Token validation failed: unknown kid") ∧
    (validate_token stCached 1100 (.error ()) tokK2).state = stCached :=
  c1_amended_fresh_cache_never_fetches stCached 1100 (.error ()) tokK2 "k2"
    (by decide) rfl (by decide) rfl

/-- C2 (amended): on a refresh in which every fetched entry parses, the
KeySet is fully replaced by the complete new generation (and the fetch time
stamped); but the replacement is not atomic under failure — the previous
generation is discarded before conversion, and a conversion failure mid-way
leaves the truncated prefix of the new generation as the KeySet (served to
the caller when non-empty). -/
theorem c2_amended_full_replacement_on_success (st : MWState) (now : Int)
    (entries : List KeyData) (ks : List (String × SigningKey))
    (hstale : now - st.jwks_last_fetch > st.jwks_cache_ttl)
    (hcfg : jwksUriOk st.oidc_config = true)
    (hconv : convertKeys entries [] = (ks, none)) :
    (get_jwks_keys st now (.ok (some entries))).state.jwks_keys = ks ∧
    (get_jwks_keys st now (.ok (some entries))).result = .ok ks ∧
    (get_jwks_keys st now (.ok (some entries))).state.jwks_last_fetch = now := by
  rw [get_jwks_keys_refresh_ok st now entries ks hstale hcfg hconv]
  exact ⟨rfl, rfl, rfl⟩

/-- C2 witness: the amended claim at the concrete stale state `stCached`
refreshed with a single well-formed entry `a`. -/
theorem c2_witness :
    (get_jwks_keys stCached 1400 (.ok (some [⟨some "a", some "A"⟩]))).state.jwks_keys =
      [("a", "A")] ∧
    (get_jwks_keys stCached 1400 (.ok (some [⟨some "a", some "A"⟩]))).result =
      .ok [("a", "A")] ∧
    (get_jwks_keys stCached 1400 (.ok (some [⟨some "a", some "A"⟩]))).state.jwks_last_fetch =
      1400 :=
  c2_amended_full_replacement_on_success stCached 1400 [⟨some "a", some "A"⟩]
    [("a", "A")] (by decide) (by decide) rfl

/-- C3 (amended): fail-soft holds for network fetch failures — an error
raised by the GET / status check / JSON decode occurs before the cache is
touched, so with a previous non-empty KeySet the stale dict is served
unchanged and a cached `keyId` still resolves. (Per the C3 counterexample it
does not hold for per-entry parse failures, which first discard the previous
generation.) -/
theorem c3_amended_fail_soft_network_only (st : MWState) (now : Int) (e : Unit)
    (k : String) (key : SigningKey)
    (hstale : now - st.jwks_last_fetch > st.jwks_cache_ttl)
    (hcfg : jwksUriOk st.oidc_config = true)
    (hk : dictGet st.jwks_keys k = some key) :
    (get_jwks_keys st now (.error e)).result = .ok st.jwks_keys ∧
    (get_jwks_keys st now (.error e)).state = st ∧
    dictGet (get_jwks_keys st now (.error e)).state.jwks_keys k = some key := by
  have hne : st.jwks_keys ≠ [] := by
    intro hnil
    rw [hnil] at hk
    simp [dictGet] at hk
  rw [get_jwks_keys_net_error st now e hstale hcfg hne]
  exact ⟨rfl, rfl, hk⟩

/-- C3 witness: the amended claim at the concrete stale state `stCached`
whose refresh fetch fails, with the cached kid `k1`. -/
theorem c3_witness :
    (get_jwks_keys stCached 1400 (.error ())).result = .ok stCached.jwks_keys ∧
    (get_jwks_keys stCached 1400 (.error ())).state = stCached ∧
    dictGet (get_jwks_keys stCached 1400 (.error ())).state.jwks_keys "k1" =
      some "KEY1" :=
  c3_amended_fail_soft_network_only stCached 1400 () "k1" "KEY1"
    (by decide) (by decide) rfl

/-- C4: fail-closed — when no KeySet has ever been fetched (the cache is
empty) and the JWKS fetch performed by a stale-cache call fails, the fetch
error propagates: `get_jwks_keys` raises it, and `validate_token` for any
token naming any `keyId` surfaces that same error rather than any key. -/
theorem c4_fail_closed_empty_cache (st : MWState) (now : Int) (e : Unit)
    (tok : Token) (k : String)
    (hempty : st.jwks_keys = [])
    (hstale : now - st.jwks_last_fetch > st.jwks_cache_ttl)
    (hcfg : jwksUriOk st.oidc_config = true)
    (hkid : tok.kid = some k) (hk : k ≠ "") :
    (get_jwks_keys st now (.error e)).result = .error .fetchError ∧
    (get_jwks_keys st now (.error e)).fetches = 1 ∧
    (validate_token st now (.error e) tok).result = .error .fetchError := by
  have hg := get_jwks_keys_net_error_empty st now e hstale hcfg hempty
  refine ⟨by rw [hg], by rw [hg], ?_⟩
  simp only [validate_token, hkid, kidFalsy, hg]
  simp [hk]

/-- C4 witness: the fail-closed claim at the concrete never-fetched state
`stEmpty` with a failing first fetch and the token naming `k1`. -/
theorem c4_witness :
    (get_jwks_keys stEmpty 400 (.error ())).result = .error .fetchError ∧
    (get_jwks_keys stEmpty 400 (.error ())).fetches = 1 ∧
    (validate_token stEmpty 400 (.error ()) tokGood).result = .error .fetchError :=
  c4_fail_closed_empty_cache stEmpty 400 () tokGood "k1" rfl
    (by decide) (by decide) rfl (by decide)

/-- C8: counterexample — `init` given a discovery document lacking both
`issuer` and `jwks_uri` succeeds and stores the document as-is, rather than
failing with a malformed-document error as the claim states. -/
theorem c8_counterexample :
    init stEmpty (.ok noFieldsDoc) =
      .ok { stEmpty with oidc_config := some noFieldsDoc } ∧
    dictGet noFieldsDoc "issuer" = none ∧
    dictGet noFieldsDoc "jwks_uri" = none :=
  ⟨rfl, rfl, rfl⟩

/-- C9: counterexample — building the user record from a validated payload
whose `realm_access` claim is the string `"user"` (present but not an
object) raises `AttributeError` instead of yielding empty values, so
principal extraction is not total. -/
theorem c9_counterexample :
    build_user strRealmClaims = .error .attributeError ∧
    dictGetD strRealmClaims "realm_access" (.vdict []) = .vstr "user" :=
  ⟨rfl, rfl⟩

/-- C10: counterexample — `get_current_user`, given credentials whose token
passes validation but whose `realm_access` claim is a non-object, raises
(propagates `AttributeError`) rather than returning a user or `None`; so
`get_current_user` does not never-raise, contrary to the claim. -/
theorem c10_counterexample :
    (get_current_user stCached 1100 (.error ()) (some tokStrRealm)).2 =
      .error .attributeError ∧
    (validate_token stCached 1100 (.error ()) tokStrRealm).result =
      .ok strRealmClaims :=
  ⟨rfl, rfl⟩

/-- C5: signature verification always uses the fixed allow-list
`allowed_algorithms = ["RS256"]` — the `algorithms` argument `validate_token`
passes to `jwt.decode` is that constant, independent of the token — so every
token that validates successfully has header algorithm `RS256` and a
signature verified under `RS256`; two tokens differing only in their header
`alg` are checked against the same fixed list, and any non-RS256 `alg` is
rejected. -/
theorem c5_fixed_algorithm (st : MWState) (now : Int) (f : JwksFetch)
    (tok : Token) (payload : PyDict)
    (h : (validate_token st now f tok).result = .ok payload) :
    tok.alg = "RS256" ∧ tok.sigAlg = "RS256" ∧ allowed_algorithms = ["RS256"] := by
  simp only [validate_token] at h
  split at h
  · simp at h
  split at h
  · simp at h
  split at h
  · simp at h
  split at h
  · simp at h
  split at h
  · simp at h
  split at h
  · simp at h
  split at h
  · simp at h
  rename_i p hdec
  simp only [jwt_decode] at hdec
  split at hdec
  · simp at hdec
  split at hdec
  · simp at hdec
  rename_i halg hsig
  simp only [Bool.not_eq_true', Bool.not_eq_false] at halg hsig
  rw [Bool.and_eq_true, beq_iff_eq, beq_iff_eq] at hsig
  have halg' : tok.alg = "RS256" := by
    simpa [allowed_algorithms] using halg
  exact ⟨halg', hsig.2.trans halg', rfl⟩

/-- C5 witness: a concretely accepted token (fresh cache `stCached`, token
`tokGood`) has header and signature algorithm `RS256`. -/
theorem c5_witness :
    tokGood.alg = "RS256" ∧ tokGood.sigAlg = "RS256" ∧
    allowed_algorithms = ["RS256"] :=
  c5_fixed_algorithm stCached 1100 (.error ()) tokGood goodClaims rfl

/-- C6: with realm roles readable as a list (`realm_access` absent or an
object, `roles` absent or a list), `has_role` never raises, returns `True`
on an empty required list, and otherwise returns `True` exactly when some
required role is among the realm roles. -/
theorem c6_has_role_intersection (payload : PyDict) (required : List String)
    (ra : PyDict) (rs : List PyVal)
    (hra : dictGetD payload "realm_access" (.vdict []) = .vdict ra)
    (hroles : dictGetD ra "roles" (.vlist []) = .vlist rs) :
    (has_role payload required = .ok true ↔
      (required = [] ∨ ∃ r ∈ required, PyVal.vstr r ∈ rs)) ∧
    ∃ b : Bool, has_role payload required = .ok b := by
  have hval : getRealmRolesVal payload = .ok (.vlist rs) := by
    unfold getRealmRolesVal
    rw [hra]
    dsimp only
    rw [hroles]
  by_cases hreq : required = []
  · subst hreq
    exact ⟨by simp [has_role], ⟨true, rfl⟩⟩
  · have hh : has_role payload required =
        .ok (required.any fun r => listContainsStr rs r) := by
      unfold has_role
      rw [if_neg hreq, hval]
      exact pyAnyIn_vlist required rs
    refine ⟨?_, ⟨_, hh⟩⟩
    rw [hh]
    simp only [Except.ok.injEq, List.any_eq_true]
    constructor
    · rintro ⟨r, hr, hc⟩
      exact Or.inr ⟨r, hr, (listContainsStr_iff rs r).mp hc⟩
    · rintro (hnil | ⟨r, hr, hc⟩)
      · exact absurd hnil hreq
      · exact ⟨r, hr, (listContainsStr_iff rs r).mpr hc⟩

/-- C6 witness: the payload with realm roles `["user"]` against the required
list `["admin", "user"]`. -/
theorem c6_witness :
    (has_role goodClaims ["admin", "user"] = .ok true ↔
      (["admin", "user"] = [] ∨
        ∃ r ∈ ["admin", "user"], PyVal.vstr r ∈ [PyVal.vstr "user"])) ∧
    ∃ b : Bool, has_role goodClaims ["admin", "user"] = .ok b :=
  c6_has_role_intersection goodClaims ["admin", "user"]
    [("roles", PyVal.vlist [PyVal.vstr "user"])] [PyVal.vstr "user"] rfl rfl

/-- C7: a JWKS fetch happens only on staleness — a first stale call fetches
once (and stamps `fetchedAt`), a second call within the TTL of that fetch
performs no fetch, and a third call after the TTL has elapsed performs
exactly one more, whatever its network outcome. -/
theorem c7_fetch_idempotence (st : MWState) (t0 t1 t2 : Int)
    (f1 f2 : JwksFetch) (entries : List KeyData)
    (ks : List (String × SigningKey))
    (hstale : t0 - st.jwks_last_fetch > st.jwks_cache_ttl)
    (hcfg : jwksUriOk st.oidc_config = true)
    (hconv : convertKeys entries [] = (ks, none))
    (hfresh : t1 - t0 ≤ st.jwks_cache_ttl)
    (hstale2 : t2 - t0 > st.jwks_cache_ttl) :
    (get_jwks_keys st t0 (.ok (some entries))).fetches = 1 ∧
    (get_jwks_keys (get_jwks_keys st t0 (.ok (some entries))).state t1 f1).fetches = 0 ∧
    (get_jwks_keys
      (get_jwks_keys (get_jwks_keys st t0 (.ok (some entries))).state t1 f1).state
      t2 f2).fetches = 1 := by
  rw [get_jwks_keys_refresh_ok st t0 entries ks hstale hcfg hconv]
  dsimp only
  rw [get_jwks_keys_fresh { st with jwks_keys := ks, jwks_last_fetch := t0 }
    t1 f1 hfresh]
  dsimp only
  exact ⟨rfl, rfl, get_jwks_keys_stale_fetches _ t2 f2 hstale2 hcfg⟩

/-- C7 witness: starting from the never-fetched `stEmpty` (ttl 300), calls
at times 301, 400 and 700 fetch once, zero times and once. -/
theorem c7_witness :
    (get_jwks_keys stEmpty 301 (.ok (some [⟨some "k1", some "KEY1"⟩]))).fetches = 1 ∧
    (get_jwks_keys
      (get_jwks_keys stEmpty 301 (.ok (some [⟨some "k1", some "KEY1"⟩]))).state
      400 (.error ())).fetches = 0 ∧
    (get_jwks_keys
      (get_jwks_keys
        (get_jwks_keys stEmpty 301 (.ok (some [⟨some "k1", some "KEY1"⟩]))).state
        400 (.error ())).state
      700 (.error ())).fetches = 1 :=
  c7_fetch_idempotence stEmpty 301 400 700 (.error ()) (.error ())
    [⟨some "k1", some "KEY1"⟩] [("k1", "KEY1")]
    (by decide) (by decide) rfl (by decide) (by decide)

/-- C8 (amended): `init` fails only when the discovery fetch itself fails
(unreachable endpoint, non-success status or JSON error) and then propagates
that error; on a successful fetch it stores the parsed document unchanged,
performing no validation of `issuer` or `jwks_uri` — absence of those fields
surfaces only later, during token validation. -/
theorem c8_amended_init_stores_unvalidated (st : MWState) :
    (∀ e : Unit, init st (.error e) = .error .fetchError) ∧
    (∀ doc : PyDict, init st (.ok doc) = .ok { st with oidc_config := some doc }) :=
  ⟨fun _ => rfl, fun _ => rfl⟩

/-- C9 (amended): building the user record never fails when the
`realm_access` value is absent (empty-object default) or an object: each
identity field falls back to `None`, roles fall back to `[]`, and the
`resource_access` value is passed through as `client_roles` (whatever its
shape, without flattening). Per the C9 counterexample, a `realm_access`
value that is present and not an object instead raises `AttributeError`. -/
theorem c9_amended_extraction_total_on_object (payload : PyDict) (ra : PyDict)
    (hra : dictGetD payload "realm_access" (.vdict []) = .vdict ra) :
    build_user payload = .ok
      { id := dictGetD payload "sub" .vnone
        username := dictGetD payload "preferred_username" .vnone
        email := dictGetD payload "email" .vnone
        name := dictGetD payload "name" .vnone
        roles := dictGetD ra "roles" (.vlist [])
        client_roles := dictGetD payload "resource_access" (.vdict [])
        token_payload := payload } := by
  unfold build_user getRealmRolesVal
  rw [hra]

/-- C9 witness: extraction from the well-formed payload `goodClaims`. -/
theorem c9_witness :
    build_user goodClaims = .ok
      { id := dictGetD goodClaims "sub" .vnone
        username := dictGetD goodClaims "preferred_username" .vnone
        email := dictGetD goodClaims "email" .vnone
        name := dictGetD goodClaims "name" .vnone
        roles := dictGetD [("roles", PyVal.vlist [PyVal.vstr "user"])] "roles"
          (.vlist [])
        client_roles := dictGetD goodClaims "resource_access" (.vdict [])
        token_payload := goodClaims } :=
  c9_amended_extraction_total_on_object goodClaims
    [("roles", PyVal.vlist [PyVal.vstr "user"])] rfl

/-- C10 (amended): `get_current_user` returns `None` when no credentials are
supplied, and returns `None` (rather than raising) whenever token validation
fails with an `HTTPException` authentication error — so those two cases are
indistinguishable to its callers. Per the C10 counterexample it can still
raise on exceptions that are not `HTTPException`, such as the
`AttributeError` from a non-object `realm_access` claim. -/
theorem c10_amended_none_on_auth_failure (st : MWState) (now : Int)
    (f : JwksFetch) (tok : Token) (s : Nat) (d : String)
    (h : (validate_token st now f tok).result = .error (.httpException s d)) :
    (get_current_user st now f none).2 = .ok none ∧
    (get_current_user st now f (some tok)).2 = .ok none := by
  refine ⟨rfl, ?_⟩
  simp only [get_current_user, h]

/-- C10 witness: a token without a `kid` fails validation with a 401 and
`get_current_user` returns `None` for it, as for absent credentials. -/
theorem c10_witness :
    (get_current_user stCached 1100 (.error ()) none).2 = .ok none ∧
    (get_current_user stCached 1100 (.error ()) (some tokNoKid)).2 = .ok none :=
  c10_amended_none_on_auth_failure stCached 1100 (.error ()) tokNoKid 401
    "Token validation failed: missing kid" rfl

